import Mathlib

/-!
Shallow embedding of `src/tools/mkfs_ext2.py`, a one-shot builder of an
Ext2-like 64 MiB disk image.  The script is a straight-line module: it
derives geometry from compile-time constants, allocates per-group metadata
blocks, reserves inodes 1-10, allocates the root directory (inode 2) and
`lost+found` (inode 11) with one data block each, and serializes
superblock, group descriptors, bitmaps, inodes and directory blocks into
the image.  Byte arrays are modelled as functions `Nat → Nat` (byte value
at offset) written through `writeAt`; bitmaps, which the script indexes
bytewise, are `List Nat` of byte values.  The only runtime inputs are the
two `time.time()` samples packed into the superblock, threaded here as
parameters `t_m` and `t_w`.
-/

set_option maxRecDepth 8000

namespace Mkfs

/-- `DISK_SIZE = 64 * 1024 * 1024`. -/
def DISK_SIZE : Nat := 64 * 1024 * 1024

/-- `BLOCK_SIZE = 1024`. -/
def BLOCK_SIZE : Nat := 1024

/-- `SECTORS_PER_BLOCK = BLOCK_SIZE // 512`. -/
def SECTORS_PER_BLOCK : Nat := BLOCK_SIZE / 512

/-- `INODE_SIZE = 128`. -/
def INODE_SIZE : Nat := 128

/-- `BLOCKS_PER_GROUP = 8192`. -/
def BLOCKS_PER_GROUP : Nat := 8192

/-- `INODES_PER_GROUP = 2048`. -/
def INODES_PER_GROUP : Nat := 2048

/-- `BLOCK_COUNT = DISK_SIZE // BLOCK_SIZE`. -/
def BLOCK_COUNT : Nat := DISK_SIZE / BLOCK_SIZE

/-- `GROUP_COUNT = (BLOCK_COUNT + BLOCKS_PER_GROUP - 1) // BLOCKS_PER_GROUP`. -/
def GROUP_COUNT : Nat := (BLOCK_COUNT + BLOCKS_PER_GROUP - 1) / BLOCKS_PER_GROUP

/-- `INODE_COUNT = INODES_PER_GROUP * GROUP_COUNT`. -/
def INODE_COUNT : Nat := INODES_PER_GROUP * GROUP_COUNT

/-- Little-endian byte `i` of the integer `v`, as produced by
`struct.pack` with an unsigned little-endian format. -/
def leBytes (v : Nat) : Nat → Nat := fun i => v / 256 ^ i % 256

/-- `a` with `len` bytes of data `d` written at offset `off`
(the semantics of `f.seek(off); f.write(d)` and of `struct.pack_into`). -/
def writeAt (a : Nat → Nat) (off len : Nat) (d : Nat → Nat) (p : Nat) : Nat :=
  if off ≤ p ∧ p < off + len then d (p - off) else a p

/-- View a concrete byte list as a byte function (missing bytes read 0). -/
def listBytes (l : List Nat) : Nat → Nat := fun i => l.getD i 0

/-- Read a little-endian u16 at offset `off`. -/
def read16 (a : Nat → Nat) (off : Nat) : Nat := a off + 256 * a (off + 1)

/-- Read a little-endian u32 at offset `off`. -/
def read32 (a : Nat → Nat) (off : Nat) : Nat :=
  a off + 256 * a (off + 1) + 256 ^ 2 * a (off + 2) + 256 ^ 3 * a (off + 3)

/-- `bitmap[i // 8] |= (1 << (i % 8))` on a bytewise bitmap. -/
def setBit (bm : List Nat) (i : Nat) : List Nat :=
  bm.set (i / 8) (bm.getD (i / 8) 0 ||| (1 <<< (i % 8)))

/-- `bool(bitmap[i // 8] & (1 << (i % 8)))`. -/
def testBit (bm : List Nat) (i : Nat) : Bool :=
  bm.getD (i / 8) 0 &&& (1 <<< (i % 8)) != 0

/-- Number of set bits in one byte. -/
def popCount8 (b : Nat) : Nat :=
  ((List.range 8).filter (fun j => b &&& (1 <<< j) != 0)).length

/-- Number of set bits in a bytewise bitmap. -/
def bitsSet (bm : List Nat) : Nat := (bm.map popCount8).sum

/-- The mutable per-group state of class `BlockGroup`.  Free counters are
integers (Python ints), bitmaps are `BLOCK_SIZE`-byte arrays. -/
structure BlockGroup where
  id : Nat
  block_bitmap_blk : Nat
  inode_bitmap_blk : Nat
  inode_table_blk : Nat
  free_blocks_count : Int
  free_inodes_count : Int
  used_dirs_count : Nat
  block_bitmap : List Nat
  inode_bitmap : List Nat
deriving DecidableEq

/-- `BlockGroup.__init__`. -/
def initGroup (i : Nat) : BlockGroup :=
  { id := i
    block_bitmap_blk := 0
    inode_bitmap_blk := 0
    inode_table_blk := 0
    free_blocks_count := (BLOCKS_PER_GROUP : Int)
    free_inodes_count := (INODES_PER_GROUP : Int)
    used_dirs_count := 0
    block_bitmap := List.replicate BLOCK_SIZE 0
    inode_bitmap := List.replicate BLOCK_SIZE 0 }

/-- `groups = [BlockGroup(i) for i in range(GROUP_COUNT)]`. -/
def groupsInit : List BlockGroup := (List.range GROUP_COUNT).map initGroup

/-- `inode_table_blocks = (INODES_PER_GROUP * INODE_SIZE) // BLOCK_SIZE`. -/
def inode_table_blocks : Nat := INODES_PER_GROUP * INODE_SIZE / BLOCK_SIZE

/-- One iteration of the metadata-allocation loop (`for g in groups:`):
group 0 first marks the superblock and GDT blocks and continues from
absolute block 3; every group then allocates its block bitmap, inode
bitmap and inode table contiguously, marking each block in the group's
block bitmap at its position relative to the group's first block and
decrementing the free-block counter once per block. -/
def allocMeta (g0 : BlockGroup) : BlockGroup :=
  let start_block := g0.id * BLOCKS_PER_GROUP + 1
  let step0 : BlockGroup × Nat :=
    if g0.id = 0 then
      ({ g0 with
          block_bitmap := setBit (setBit g0.block_bitmap 0) 1
          free_blocks_count := g0.free_blocks_count - 2 }, 3)
    else
      (g0, start_block)
  let g1 := step0.1
  let a1 := step0.2
  let rel1 := a1 - (g1.id * BLOCKS_PER_GROUP + 1)
  let g2 := { g1 with
      block_bitmap_blk := a1
      block_bitmap := setBit g1.block_bitmap rel1
      free_blocks_count := g1.free_blocks_count - 1 }
  let a2 := a1 + 1
  let rel2 := a2 - (g2.id * BLOCKS_PER_GROUP + 1)
  let g3 := { g2 with
      inode_bitmap_blk := a2
      block_bitmap := setBit g2.block_bitmap rel2
      free_blocks_count := g2.free_blocks_count - 1 }
  let a3 := a2 + 1
  let g4 := { g3 with inode_table_blk := a3 }
  (List.range inode_table_blocks).foldl
    (fun h k =>
      let rel := a3 + k - (h.id * BLOCKS_PER_GROUP + 1)
      { h with
          block_bitmap := setBit h.block_bitmap rel
          free_blocks_count := h.free_blocks_count - 1 })
    g4

/-- The groups after the metadata-allocation loop. -/
def groupsMeta : List BlockGroup := groupsInit.map allocMeta

/-- Update group `i` of the list in place. -/
def updG (gs : List BlockGroup) (i : Nat) (f : BlockGroup → BlockGroup) :
    List BlockGroup :=
  gs.set i (f (gs.getD i (initGroup 0)))

/-- `root_inode_index = 2`. -/
def root_inode_index : Nat := 2

/-- `root_group_idx = (root_inode_index - 1) // INODES_PER_GROUP`. -/
def root_group_idx : Nat := (root_inode_index - 1) / INODES_PER_GROUP

/-- `root_inode_offset = (root_inode_index - 1) % INODES_PER_GROUP`. -/
def root_inode_offset : Nat := (root_inode_index - 1) % INODES_PER_GROUP

/-- Groups after marking the root inode: its bit set in the owning
group's inode bitmap, free-inode count decremented, used-dirs bumped. -/
def groupsRoot : List BlockGroup :=
  updG groupsMeta root_group_idx (fun g =>
    { g with
        inode_bitmap := setBit g.inode_bitmap root_inode_offset
        free_inodes_count := g.free_inodes_count - 1
        used_dirs_count := g.used_dirs_count + 1 })

/-- One iteration of the reserved-inode loop (`for i in range(1, 11)`),
skipping inode 2. -/
def markReserved (gs : List BlockGroup) (i : Nat) : List BlockGroup :=
  if i = 2 then gs
  else
    let grp := (i - 1) / INODES_PER_GROUP
    let off := (i - 1) % INODES_PER_GROUP
    updG gs grp (fun g =>
      { g with
          inode_bitmap := setBit g.inode_bitmap off
          free_inodes_count := g.free_inodes_count - 1 })

/-- Groups after reserving inodes 1-10 (inode 2 handled earlier). -/
def groupsReserved : List BlockGroup :=
  (List.range' 1 10).foldl markReserved groupsRoot

/-- The first-fit scan `for i in range(BLOCKS_PER_GROUP): if not
(bitmap[i//8] & (1 << (i%8))): ... break`, returning the first free bit
index if any. -/
def findFirstFree (bm : List Nat) : Option Nat :=
  (List.range' 0 BLOCKS_PER_GROUP).find?
    (fun i => bm.getD (i / 8) 0 &&& (1 <<< (i % 8)) == 0)

/-- The whole data-block allocation fragment: on success the found bit is
set, the free-block counter decremented and the absolute address
`g.id * BLOCKS_PER_GROUP + 1 + i` recorded; when the scan exhausts the
group the loop simply falls through, leaving the group untouched and the
recorded address at its initial sentinel value `0` (the script has no
error path here). -/
def allocFirstFit (g : BlockGroup) : BlockGroup × Nat :=
  match findFirstFree g.block_bitmap with
  | some i =>
      ({ g with
          block_bitmap := setBit g.block_bitmap i
          free_blocks_count := g.free_blocks_count - 1 },
        g.id * BLOCKS_PER_GROUP + 1 + i)
  | none => (g, 0)

/-- A block bitmap with every bit set: the exhaustion input for the
first-fit scan (every byte of the `BLOCK_SIZE`-byte bitmap is `0xFF`,
so all `BLOCKS_PER_GROUP` bits are used). -/
def exhaustedBitmap : List Nat := List.replicate BLOCK_SIZE 255

/-- A group whose block bitmap is exhausted, used to exercise the
first-fit scan's failure behaviour. -/
def exhaustedGroup : BlockGroup := { initGroup 0 with block_bitmap := exhaustedBitmap }

/-- The root data-block allocation acts on `groups[0]`. -/
def rootAlloc : BlockGroup × Nat := allocFirstFit (groupsReserved.getD 0 (initGroup 0))

/-- Groups after allocating the root directory's data block. -/
def groupsRootData : List BlockGroup := groupsReserved.set 0 rootAlloc.1

/-- `root_data_block` as left by the first-fit scan. -/
def root_data_block : Nat := rootAlloc.2

/-- `lf_inode_index = 11`. -/
def lf_inode_index : Nat := 11

/-- `lf_group_idx = (lf_inode_index - 1) // INODES_PER_GROUP`. -/
def lf_group_idx : Nat := (lf_inode_index - 1) / INODES_PER_GROUP

/-- `lf_inode_offset = (lf_inode_index - 1) % INODES_PER_GROUP`. -/
def lf_inode_offset : Nat := (lf_inode_index - 1) % INODES_PER_GROUP

/-- Groups after marking the `lost+found` inode. -/
def groupsLf : List BlockGroup :=
  updG groupsRootData lf_group_idx (fun g =>
    { g with
        inode_bitmap := setBit g.inode_bitmap lf_inode_offset
        free_inodes_count := g.free_inodes_count - 1
        used_dirs_count := g.used_dirs_count + 1 })

/-- The `lost+found` data-block allocation acts on `groups[lf_group_idx]`. -/
def lfAlloc : BlockGroup × Nat :=
  allocFirstFit (groupsLf.getD lf_group_idx (initGroup 0))

/-- The final group states, immediately before serialization. -/
def groupsFinal : List BlockGroup := groupsLf.set lf_group_idx lfAlloc.1

/-- `lf_data_block` as left by the first-fit scan. -/
def lf_data_block : Nat := lfAlloc.2

/-- `total_free_blocks = sum(g.free_blocks_count for g in groups)`. -/
def total_free_blocks : Int := (groupsFinal.map (·.free_blocks_count)).sum

/-- `total_free_inodes = sum(g.free_inodes_count for g in groups)`. -/
def total_free_inodes : Int := (groupsFinal.map (·.free_inodes_count)).sum

/-!
`create_superblock()` packs `"<IIIIIIIIIIIIIHH"` at offset 0 — thirteen
u32 fields at offsets 0, 4, ..., 48 and two u16 fields at 52 and 54 —
then the magic, state, error-policy and revision fields.  Each field
write is a named stage so that per-byte facts can be proved one write
at a time; the stages appear in the source's pack order.  The two
`time.time()` samples are the parameters `t_m` and `t_w`. -/

/-- `s_inodes_count` at offset 0 over the zeroed 1024-byte array. -/
def sb_pack0 : Nat → Nat := writeAt (fun _ => 0) 0 4 (leBytes INODE_COUNT)

/-- `s_blocks_count` at offset 4. -/
def sb_pack1 : Nat → Nat := writeAt sb_pack0 4 4 (leBytes BLOCK_COUNT)

/-- `s_r_blocks_count = 0` at offset 8. -/
def sb_pack2 : Nat → Nat := writeAt sb_pack1 8 4 (leBytes 0)

/-- Provisional `s_free_blocks_count` at offset 12. -/
def sb_pack3 : Nat → Nat :=
  writeAt sb_pack2 12 4 (leBytes (BLOCK_COUNT - 1 - GROUP_COUNT * 1 - 1))

/-- Provisional `s_free_inodes_count` at offset 16. -/
def sb_pack4 : Nat → Nat := writeAt sb_pack3 16 4 (leBytes (INODE_COUNT - 11))

/-- `s_first_data_block = 1` at offset 20. -/
def sb_pack5 : Nat → Nat := writeAt sb_pack4 20 4 (leBytes 1)

/-- `s_log_block_size = 0` at offset 24. -/
def sb_pack6 : Nat → Nat := writeAt sb_pack5 24 4 (leBytes 0)

/-- `s_log_frag_size = 0` at offset 28. -/
def sb_pack7 : Nat → Nat := writeAt sb_pack6 28 4 (leBytes 0)

/-- `s_blocks_per_group` at offset 32. -/
def sb_pack8 : Nat → Nat := writeAt sb_pack7 32 4 (leBytes BLOCKS_PER_GROUP)

/-- `s_frags_per_group` at offset 36. -/
def sb_pack9 : Nat → Nat := writeAt sb_pack8 36 4 (leBytes BLOCKS_PER_GROUP)

/-- `s_inodes_per_group` at offset 40. -/
def sb_pack10 : Nat → Nat := writeAt sb_pack9 40 4 (leBytes INODES_PER_GROUP)

/-- `s_mtime = int(time.time())` at offset 44. -/
def sb_pack11 (t_m : Nat) : Nat → Nat := writeAt sb_pack10 44 4 (leBytes t_m)

/-- `s_wtime = int(time.time())` at offset 48. -/
def sb_pack12 (t_m t_w : Nat) : Nat → Nat :=
  writeAt (sb_pack11 t_m) 48 4 (leBytes t_w)

/-- `s_mnt_count = 0` at offset 52. -/
def sb_pack13 (t_m t_w : Nat) : Nat → Nat :=
  writeAt (sb_pack12 t_m t_w) 52 2 (leBytes 0)

/-- `s_max_mnt_count = 20` at offset 54. -/
def sb_pack14 (t_m t_w : Nat) : Nat → Nat :=
  writeAt (sb_pack13 t_m t_w) 54 2 (leBytes 20)

/-- `s_magic = 0xEF53` at offset 56. -/
def sb_magic (t_m t_w : Nat) : Nat → Nat :=
  writeAt (sb_pack14 t_m t_w) 56 2 (leBytes 0xEF53)

/-- `s_state = 1` at offset 58. -/
def sb_state (t_m t_w : Nat) : Nat → Nat :=
  writeAt (sb_magic t_m t_w) 58 2 (leBytes 1)

/-- `s_errors = 1` at offset 60. -/
def sb_errors (t_m t_w : Nat) : Nat → Nat :=
  writeAt (sb_state t_m t_w) 60 2 (leBytes 1)

/-- `create_superblock()` ends packing `s_rev_level = 0` at offset 76. -/
def create_superblock (t_m t_w : Nat) : Nat → Nat :=
  writeAt (sb_errors t_m t_w) 76 4 (leBytes 0)

/-- The first free-count override: the after-allocation total free-block
count is packed over offset 12. -/
def sb_fix12 (t_m t_w : Nat) : Nat → Nat :=
  writeAt (create_superblock t_m t_w) 12 4 (leBytes total_free_blocks.toNat)

/-- `sb_data` as written to disk: the provisional free counts at offsets
12 and 16 are overridden with the after-allocation totals. -/
def sb_data (t_m t_w : Nat) : Nat → Nat :=
  writeAt (sb_fix12 t_m t_w) 16 4 (leBytes total_free_inodes.toNat)

/-- One `"<IIIHHHH"` group-descriptor pack at offset `i * 32` of the GDT
block. -/
def packGroupDesc (a : Nat → Nat) (i : Nat) (g : BlockGroup) : Nat → Nat :=
  let a := writeAt a (i * 32) 4 (leBytes g.block_bitmap_blk)
  let a := writeAt a (i * 32 + 4) 4 (leBytes g.inode_bitmap_blk)
  let a := writeAt a (i * 32 + 8) 4 (leBytes g.inode_table_blk)
  let a := writeAt a (i * 32 + 12) 2 (leBytes g.free_blocks_count.toNat)
  let a := writeAt a (i * 32 + 14) 2 (leBytes g.free_inodes_count.toNat)
  let a := writeAt a (i * 32 + 16) 2 (leBytes g.used_dirs_count)
  writeAt a (i * 32 + 18) 2 (leBytes 0)

/-- The GDT block: one descriptor per group, in ascending order. -/
def gdt : Nat → Nat :=
  ((List.range' 0 GROUP_COUNT).zip groupsFinal).foldl
    (fun a p => packGroupDesc a p.1 p.2) (fun _ => 0)

/-- The 128-byte root-inode record (`root_inode` in the script): mode
`0x41ED`, size `BLOCK_SIZE`, sector count 2, link count 3, first direct
block pointer `root_data_block`; every other byte zero. -/
def root_inode : Nat → Nat :=
  let a : Nat → Nat := fun _ => 0
  let a := writeAt a 0 2 (leBytes 0x41ED)
  let a := writeAt a 4 4 (leBytes BLOCK_SIZE)
  let a := writeAt a 28 4 (leBytes 2)
  let a := writeAt a 26 2 (leBytes 3)
  writeAt a 40 4 (leBytes root_data_block)

/-- The 128-byte `lost+found` inode record (`lf_inode`): like the root's
but with link count 2 and pointer `lf_data_block`. -/
def lf_inode : Nat → Nat :=
  let a : Nat → Nat := fun _ => 0
  let a := writeAt a 0 2 (leBytes 0x41ED)
  let a := writeAt a 4 4 (leBytes BLOCK_SIZE)
  let a := writeAt a 28 4 (leBytes 2)
  let a := writeAt a 26 2 (leBytes 2)
  writeAt a 40 4 (leBytes lf_data_block)

/-- Byte values of a name string. -/
def strB (s : String) : List Nat := s.toList.map Char.toNat

/-- One `"<IHBBns"` directory-entry pack at offset `off`: u32 inode, u16
record length, u8 name length, u8 file type, then the name bytes. -/
def packDirent (a : Nat → Nat) (off ino rec_l name_l ftype : Nat)
    (name : List Nat) : Nat → Nat :=
  let a := writeAt a off 4 (leBytes ino)
  let a := writeAt a (off + 4) 2 (leBytes rec_l)
  let a := writeAt a (off + 6) 1 (leBytes name_l)
  let a := writeAt a (off + 7) 1 (leBytes ftype)
  writeAt a (off + 8) name.length (listBytes name)

/-- The root directory content block: `.` and `..` (both inode 2, record
length 12) followed by `lost+found` (inode 11) whose record length is
stretched to the end of the block. -/
def root_block : Nat → Nat :=
  let a : Nat → Nat := fun _ => 0
  let a := packDirent a 0 2 12 1 2 (strB ".")
  let a := packDirent a 12 2 12 2 2 (strB "..")
  packDirent a 24 11 (BLOCK_SIZE - 24) 10 2 (strB "lost+found")

/-- The `lost+found` content block: `.` (inode 11, record length 12) and
`..` (inode 2) stretched to the end of the block. -/
def lf_block : Nat → Nat :=
  let a : Nat → Nat := fun _ => 0
  let a := packDirent a 0 11 12 1 2 (strB ".")
  packDirent a 12 2 (BLOCK_SIZE - 12) 2 2 (strB "..")

/-- The per-group writes of the image loop: block bitmap and inode
bitmap at their assigned blocks, and (for the owning groups) the root
and `lost+found` inode records inside the inode table. -/
def writeGroupPhase (a : Nat → Nat) (g : BlockGroup) : Nat → Nat :=
  let a := writeAt a (g.block_bitmap_blk * BLOCK_SIZE) BLOCK_SIZE
    (listBytes g.block_bitmap)
  let a := writeAt a (g.inode_bitmap_blk * BLOCK_SIZE) BLOCK_SIZE
    (listBytes g.inode_bitmap)
  let a :=
    if g.id = root_group_idx then
      writeAt a
        (g.inode_table_blk * BLOCK_SIZE +
          (root_inode_index - 1) % INODES_PER_GROUP * INODE_SIZE)
        INODE_SIZE root_inode
    else a
  if g.id = lf_group_idx then
    writeAt a
      (g.inode_table_blk * BLOCK_SIZE +
        (lf_inode_index - 1) % INODES_PER_GROUP * INODE_SIZE)
      INODE_SIZE lf_inode
  else a

/-- The whole `disk.img` byte content: the file is truncated to
`DISK_SIZE` zeros, then the superblock is written at byte 1024, the GDT
at block 2, each group's bitmaps and inode records, and finally the two
directory content blocks at their allocated data-block addresses. -/
def image (t_m t_w : Nat) : Nat → Nat :=
  let a : Nat → Nat := fun _ => 0
  let a := writeAt a 1024 1024 (sb_data t_m t_w)
  let a := writeAt a (2 * BLOCK_SIZE) BLOCK_SIZE gdt
  let a := groupsFinal.foldl writeGroupPhase a
  let a := writeAt a (root_data_block * BLOCK_SIZE) BLOCK_SIZE root_block
  writeAt a (lf_data_block * BLOCK_SIZE) BLOCK_SIZE lf_block

/-! ## Helper lemmas -/

/-- Bytes of the superblock outside the two timestamp fields (local
offsets 44-51) do not depend on the `s_mtime` sample: stage 11. -/
theorem sb_pack11_indep (t t2 q : Nat) (h : q < 44 ∨ 52 ≤ q) :
    sb_pack11 t q = sb_pack11 t2 q := by
  simp only [sb_pack11, writeAt]
  split_ifs with hc
  · exfalso; omega
  · rfl

/-- Stage 12 of the superblock is time-independent off the timestamp
fields. -/
theorem sb_pack12_indep (t u t2 u2 q : Nat) (h : q < 44 ∨ 52 ≤ q) :
    sb_pack12 t u q = sb_pack12 t2 u2 q := by
  simp only [sb_pack12, writeAt]
  split_ifs with hc
  · exfalso; omega
  · exact sb_pack11_indep t t2 q h

/-- Stage 13 of the superblock is time-independent off the timestamp
fields. -/
theorem sb_pack13_indep (t u t2 u2 q : Nat) (h : q < 44 ∨ 52 ≤ q) :
    sb_pack13 t u q = sb_pack13 t2 u2 q := by
  simp only [sb_pack13, writeAt]
  split_ifs with hc
  · rfl
  · exact sb_pack12_indep t u t2 u2 q h

/-- Stage 14 of the superblock is time-independent off the timestamp
fields. -/
theorem sb_pack14_indep (t u t2 u2 q : Nat) (h : q < 44 ∨ 52 ≤ q) :
    sb_pack14 t u q = sb_pack14 t2 u2 q := by
  simp only [sb_pack14, writeAt]
  split_ifs with hc
  · rfl
  · exact sb_pack13_indep t u t2 u2 q h

/-- The magic-field stage is time-independent off the timestamp fields. -/
theorem sb_magic_indep (t u t2 u2 q : Nat) (h : q < 44 ∨ 52 ≤ q) :
    sb_magic t u q = sb_magic t2 u2 q := by
  simp only [sb_magic, writeAt]
  split_ifs with hc
  · rfl
  · exact sb_pack14_indep t u t2 u2 q h

/-- The state-field stage is time-independent off the timestamp fields. -/
theorem sb_state_indep (t u t2 u2 q : Nat) (h : q < 44 ∨ 52 ≤ q) :
    sb_state t u q = sb_state t2 u2 q := by
  simp only [sb_state, writeAt]
  split_ifs with hc
  · rfl
  · exact sb_magic_indep t u t2 u2 q h

/-- The errors-field stage is time-independent off the timestamp fields. -/
theorem sb_errors_indep (t u t2 u2 q : Nat) (h : q < 44 ∨ 52 ≤ q) :
    sb_errors t u q = sb_errors t2 u2 q := by
  simp only [sb_errors, writeAt]
  split_ifs with hc
  · rfl
  · exact sb_state_indep t u t2 u2 q h

/-- `create_superblock` is time-independent off the timestamp fields. -/
theorem create_superblock_indep (t u t2 u2 q : Nat) (h : q < 44 ∨ 52 ≤ q) :
    create_superblock t u q = create_superblock t2 u2 q := by
  simp only [create_superblock, writeAt]
  split_ifs with hc
  · rfl
  · exact sb_errors_indep t u t2 u2 q h

/-- The free-block override stage is time-independent off the timestamp
fields. -/
theorem sb_fix12_indep (t u t2 u2 q : Nat) (h : q < 44 ∨ 52 ≤ q) :
    sb_fix12 t u q = sb_fix12 t2 u2 q := by
  simp only [sb_fix12, writeAt]
  split_ifs with hc
  · rfl
  · exact create_superblock_indep t u t2 u2 q h

/-- The final superblock bytes outside local offsets 44-51 do not depend
on the two `time.time()` samples. -/
theorem sb_data_time_indep (t u t2 u2 q : Nat) (h : q < 44 ∨ 52 ≤ q) :
    sb_data t u q = sb_data t2 u2 q := by
  simp only [sb_data, writeAt]
  split_ifs with hc
  · rfl
  · exact sb_fix12_indep t u t2 u2 q h

/-- A `writeAt` layer preserves pointwise agreement of the underlying
byte arrays. -/
theorem writeAt_congr {a b : Nat → Nat} (off len : Nat) (d : Nat → Nat) (p : Nat)
    (h : a p = b p) : writeAt a off len d p = writeAt b off len d p := by
  unfold writeAt
  split
  · rfl
  · exact h

/-- The per-group write pass preserves pointwise agreement of the
underlying byte arrays. -/
theorem writeGroupPhase_congr {a b : Nat → Nat} (g : BlockGroup) (p : Nat)
    (h : a p = b p) : writeGroupPhase a g p = writeGroupPhase b g p := by
  simp only [writeGroupPhase]
  split_ifs <;> repeat (first | exact h | apply writeAt_congr)

/-- The whole group-loop write pass preserves pointwise agreement. -/
theorem foldl_writeGroupPhase_congr (gs : List BlockGroup) {a b : Nat → Nat}
    (p : Nat) (h : a p = b p) :
    (gs.foldl writeGroupPhase a) p = (gs.foldl writeGroupPhase b) p := by
  induction gs generalizing a b with
  | nil => exact h
  | cons g gs ih => exact ih (writeGroupPhase_congr g p h)

/-- A first-fit scan over a fully saturated bitmap finds nothing. -/
theorem findFirstFree_saturated : findFirstFree exhaustedBitmap = none := by
  rw [findFirstFree, exhaustedBitmap, List.find?_eq_none]
  intro i hi
  rw [List.mem_range'_1] at hi
  have hb : i / 8 < BLOCK_SIZE := by
    have hlt : i < BLOCKS_PER_GROUP := by omega
    simp only [BLOCKS_PER_GROUP] at hlt
    simp only [BLOCK_SIZE]
    omega
  rw [List.getD_eq_getElem?_getD, List.getElem?_replicate, if_pos hb]
  have h : i % 8 = 0 ∨ i % 8 = 1 ∨ i % 8 = 2 ∨ i % 8 = 3 ∨
      i % 8 = 4 ∨ i % 8 = 5 ∨ i % 8 = 6 ∨ i % 8 = 7 := by omega
  rcases h with h|h|h|h|h|h|h|h <;> rw [h] <;> decide

/-- When the first-fit scan finds no free bit, the allocation fragment
returns the group unchanged together with the sentinel address 0. -/
theorem allocFirstFit_of_none (g : BlockGroup)
    (h : findFirstFree g.block_bitmap = none) : allocFirstFit g = (g, 0) := by
  rw [allocFirstFit, h]

/-! ## Claim theorems -/

/-- Claim C1: after all allocation passes and immediately before
serialization, every group's block bitmap has exactly
`BLOCKS_PER_GROUP - free_blocks_count` set bits and every group's inode
bitmap has exactly `INODES_PER_GROUP - free_inodes_count` set bits. -/
theorem bitmap_consistency_after_allocation :
    groupsFinal.all (fun g =>
      ((bitsSet g.block_bitmap : Int) ==
        (BLOCKS_PER_GROUP : Int) - g.free_blocks_count) &&
      ((bitsSet g.inode_bitmap : Int) ==
        (INODES_PER_GROUP : Int) - g.free_inodes_count)) = true := by
  decide

/-- Claim C2: the claim that an exhausted first-fit scan aborts the
build fatally is false of the code.  On a saturated bitmap the scan
returns nothing, and the allocation fragment then leaves the group
untouched and the recorded data-block address at the sentinel 0 — there
is no error path, so the write phase proceeds and writes the directory
block at byte offset `0 * BLOCK_SIZE = 0`. -/
theorem exhausted_scan_is_silently_ignored :
    findFirstFree exhaustedGroup.block_bitmap = none ∧
    allocFirstFit exhaustedGroup = (exhaustedGroup, 0) ∧
    (allocFirstFit exhaustedGroup).2 * BLOCK_SIZE = 0 :=
  ⟨findFirstFree_saturated,
   allocFirstFit_of_none exhaustedGroup findFirstFree_saturated, by
    rw [allocFirstFit_of_none exhaustedGroup findFirstFree_saturated]
    rfl⟩

/-- Claim C3: after the metadata pass, group 0 starts its metadata at
absolute block 3 with the superblock and GDT bits set and its free-block
count further reduced by 2, every other group starts at
`id * BLOCKS_PER_GROUP + 1`; each group allocates one block-bitmap
block, one inode-bitmap block and `inode_table_blocks` contiguous
inode-table blocks in that order, marking bits at group-relative
positions and decrementing the free counter once per block — so group
0's bitmap is exactly bits 0-259 (bytes `0xFF`×32 then `0x0F`) and every
other group's is exactly bits 0-257 (bytes `0xFF`×32 then `0x03`); and
the floor-computed `inode_table_blocks` coincides with the ceiling
`⌈INODES_PER_GROUP * INODE_SIZE / BLOCK_SIZE⌉`. -/
theorem metadata_allocation_layout :
    (groupsMeta.all (fun g =>
      (g.block_bitmap_blk == if g.id == 0 then 3 else g.id * BLOCKS_PER_GROUP + 1) &&
      (g.inode_bitmap_blk == g.block_bitmap_blk + 1) &&
      (g.inode_table_blk == g.inode_bitmap_blk + 1) &&
      (g.free_blocks_count == (BLOCKS_PER_GROUP : Int) -
        (if g.id == 0 then 2 else 0) - (2 + (inode_table_blocks : Int))) &&
      (g.block_bitmap == if g.id == 0
        then List.replicate 32 255 ++ [15] ++ List.replicate 991 0
        else List.replicate 32 255 ++ [3] ++ List.replicate 991 0)) = true) ∧
    inode_table_blocks = (INODES_PER_GROUP * INODE_SIZE + BLOCK_SIZE - 1) / BLOCK_SIZE := by
  decide

/-- Claim C4: both data blocks are chosen first-fit: in the state seen
by each scan, every bit below the chosen index is set and the chosen bit
is free; the chosen bit is then set, the free-block count decremented by
one, and the recorded address is `group_id * BLOCKS_PER_GROUP + 1 + bit`
(261 for the root, 262 for `lost+found`). -/
theorem first_fit_data_block_allocation :
    findFirstFree ((groupsReserved.getD 0 (initGroup 0)).block_bitmap) = some 260 ∧
    ((List.range' 0 260).all
      (fun j => testBit (groupsReserved.getD 0 (initGroup 0)).block_bitmap j) = true) ∧
    testBit (groupsReserved.getD 0 (initGroup 0)).block_bitmap 260 = false ∧
    root_data_block = 0 * BLOCKS_PER_GROUP + 1 + 260 ∧
    testBit rootAlloc.1.block_bitmap 260 = true ∧
    rootAlloc.1.free_blocks_count =
      (groupsReserved.getD 0 (initGroup 0)).free_blocks_count - 1 ∧
    findFirstFree ((groupsLf.getD lf_group_idx (initGroup 0)).block_bitmap) = some 261 ∧
    ((List.range' 0 261).all
      (fun j => testBit (groupsLf.getD lf_group_idx (initGroup 0)).block_bitmap j) = true) ∧
    testBit (groupsLf.getD lf_group_idx (initGroup 0)).block_bitmap 261 = false ∧
    lf_data_block = lf_group_idx * BLOCKS_PER_GROUP + 1 + 261 ∧
    testBit lfAlloc.1.block_bitmap 261 = true ∧
    lfAlloc.1.free_blocks_count =
      (groupsLf.getD lf_group_idx (initGroup 0)).free_blocks_count - 1 := by
  decide

/-- Claim C5: the root directory block holds `.` (inode 2, name length
1, record length 12), `..` (inode 2, name length 2, record length 12)
and `lost+found` (inode 11, name length 10, record length 1000 =
1024 - 24); the `lost+found` block holds `.` (inode 11, record length
12) and `..` (inode 2, record length 1012 = 1024 - 12); every entry has
directory type tag 2, and the record lengths of each block sum to the
block size. -/
theorem directory_block_contents :
    read32 root_block 0 = 2 ∧ read16 root_block 4 = 12 ∧
    root_block 6 = 1 ∧ root_block 7 = 2 ∧ root_block 8 = 46 ∧
    read32 root_block 12 = 2 ∧ read16 root_block 16 = 12 ∧
    root_block 18 = 2 ∧ root_block 19 = 2 ∧
    root_block 20 = 46 ∧ root_block 21 = 46 ∧
    read32 root_block 24 = 11 ∧ read16 root_block 28 = 1024 - 24 ∧
    root_block 30 = 10 ∧ root_block 31 = 2 ∧
    ((List.range' 0 10).map (fun k => root_block (32 + k)) = strB "lost+found") ∧
    read16 root_block 4 + read16 root_block 16 + read16 root_block 28 = BLOCK_SIZE ∧
    read32 lf_block 0 = 11 ∧ read16 lf_block 4 = 12 ∧
    lf_block 6 = 1 ∧ lf_block 7 = 2 ∧ lf_block 8 = 46 ∧
    read32 lf_block 12 = 2 ∧ read16 lf_block 16 = 1024 - 12 ∧
    lf_block 18 = 2 ∧ lf_block 19 = 2 ∧ lf_block 20 = 46 ∧ lf_block 21 = 46 ∧
    read16 lf_block 4 + read16 lf_block 16 = BLOCK_SIZE := by
  decide

/-- Claim C6: for any timestamp samples, the final superblock bytes have
magic `0xEF53` at offset 56, state 1 at 58, error policy 1 at 60,
revision 0 at 76, first data block 1 at 20 and log block size 0 at 24;
the free-count fields at offsets 12 and 16 carry the after-allocation
per-group sums, the blocks field overriding a different provisional
value from `create_superblock`. -/
theorem superblock_fields (t u : Nat) :
    read16 (sb_data t u) 56 = 0xEF53 ∧ read16 (sb_data t u) 58 = 1 ∧
    read16 (sb_data t u) 60 = 1 ∧ read32 (sb_data t u) 76 = 0 ∧
    read32 (sb_data t u) 20 = 1 ∧ read32 (sb_data t u) 24 = 0 ∧
    read32 (sb_data t u) 12 = total_free_blocks.toNat ∧
    read32 (sb_data t u) 16 = total_free_inodes.toNat ∧
    read32 (create_superblock t u) 12 = BLOCK_COUNT - 1 - GROUP_COUNT * 1 - 1 ∧
    read32 (create_superblock t u) 12 ≠ read32 (sb_data t u) 12 := by
  have H : ∀ q, q < 44 ∨ 52 ≤ q → sb_data t u q = sb_data 0 0 q :=
    fun q hq => sb_data_time_indep t u 0 0 q hq
  have G : ∀ q, q < 44 ∨ 52 ≤ q →
      create_superblock t u q = create_superblock 0 0 q :=
    fun q hq => create_superblock_indep t u 0 0 q hq
  simp only [read16, read32,
    H 12 (by omega), H 13 (by omega), H 14 (by omega), H 15 (by omega),
    H 16 (by omega), H 17 (by omega), H 18 (by omega), H 19 (by omega),
    H 20 (by omega), H 21 (by omega), H 22 (by omega), H 23 (by omega),
    H 24 (by omega), H 25 (by omega), H 26 (by omega), H 27 (by omega),
    H 56 (by omega), H 57 (by omega), H 58 (by omega), H 59 (by omega),
    H 60 (by omega), H 61 (by omega),
    H 76 (by omega), H 77 (by omega), H 78 (by omega), H 79 (by omega),
    G 12 (by omega), G 13 (by omega), G 14 (by omega), G 15 (by omega)]
  decide

/-- Claim C7: the root and `lost+found` inode records carry exactly mode
`0x41ED`, size 1024, link counts 3 and 2, sector count 2 and the
allocated data-block address at offset 40; every byte outside those five
fields is zero. -/
theorem inode_record_fields :
    read16 root_inode 0 = 0x41ED ∧ read32 root_inode 4 = 1024 ∧
    read16 root_inode 26 = 3 ∧ read32 root_inode 28 = 2 ∧
    read32 root_inode 40 = root_data_block ∧
    read16 lf_inode 0 = 0x41ED ∧ read32 lf_inode 4 = 1024 ∧
    read16 lf_inode 26 = 2 ∧ read32 lf_inode 28 = 2 ∧
    read32 lf_inode 40 = lf_data_block ∧
    ((List.range' 0 128).all (fun j =>
      ([0, 1, 4, 5, 6, 7, 26, 27, 28, 29, 30, 31,
        40, 41, 42, 43].contains j) || (root_inode j == 0)) = true) ∧
    ((List.range' 0 128).all (fun j =>
      ([0, 1, 4, 5, 6, 7, 26, 27, 28, 29, 30, 31,
        40, 41, 42, 43].contains j) || (lf_inode j == 0)) = true) := by
  decide

/-- Claim C8: the derived geometry under the default parameters is
65536 blocks, 8 groups by ceiling division, and 16384 inodes. -/
theorem derived_geometry :
    BLOCK_COUNT = 65536 ∧
    GROUP_COUNT = (BLOCK_COUNT + BLOCKS_PER_GROUP - 1) / BLOCKS_PER_GROUP ∧
    GROUP_COUNT = 8 ∧
    INODE_COUNT = INODES_PER_GROUP * GROUP_COUNT ∧
    INODE_COUNT = 16384 := by
  decide

/-- Claim C9: after all allocation passes, the free-block counters plus
the used bits across all block bitmaps sum to the total block count, and
likewise for inodes. -/
theorem free_count_conservation :
    (groupsFinal.map (fun g => g.free_blocks_count)).sum +
      (groupsFinal.map (fun g => (bitsSet g.block_bitmap : Int))).sum =
      (BLOCK_COUNT : Int) ∧
    (groupsFinal.map (fun g => g.free_inodes_count)).sum +
      (groupsFinal.map (fun g => (bitsSet g.inode_bitmap : Int))).sum =
      (INODE_COUNT : Int) := by
  decide

/-- Claim C10: two runs of the tool differ at most in the superblock's
`s_mtime`/`s_wtime` fields, absolute byte offsets 1068-1075; every byte
of the image outside that window is independent of the time samples. -/
theorem image_determinism (t u t2 u2 p : Nat) (h : p < 1068 ∨ 1076 ≤ p) :
    image t u p = image t2 u2 p := by
  simp only [image]
  apply writeAt_congr
  apply writeAt_congr
  apply foldl_writeGroupPhase_congr
  apply writeAt_congr
  unfold writeAt
  split
  · next hc => exact sb_data_time_indep t u t2 u2 (p - 1024) (by omega)
  · rfl

/-- Witness for C10 at byte 0 with times 0/0 versus 1/1. -/
theorem image_determinism_witness :
    ((0 : Nat) < 1068 ∨ 1076 ≤ (0 : Nat)) ∧ image 0 0 0 = image 1 1 0 :=
  ⟨Or.inl (by decide), image_determinism 0 0 1 1 0 (Or.inl (by decide))⟩

end Mkfs
